import Mathlib

/-!
Shallow embedding of `include/ScanConversionResamplingMethods.h` from the
SlicerITKUltrasound repository.

The header defines one dispatch function, `ScanConversionResampling`, and three
adapter functions (`ITKScanConversionResampling`, `VTKProbeFilterResampling`,
`VTKPointInterpolatorResampling`), each a linear sequence of toolkit calls.
The numerical work happens inside the ITK/VTK toolkits; what this file authors
is the dispatch on the method-name string, the construction and configuration
of the toolkit pipeline with the caller-supplied geometry, the kernel choice,
and the copy of the result buffer into the output image.

The embedding models each function as a pure Lean function from its arguments
to a result record holding
  - the returned exit code (`EXIT_SUCCESS = 0`, `EXIT_FAILURE = 1`),
  - the value assigned to the by-reference `outputImage` parameter
    (`none` means the function returned without assigning `outputImage`,
    leaving the caller's reference unchanged),
  - the ordered trace of toolkit calls the function performs.

Images produced by toolkit filters are represented symbolically by `ImgExpr`:
a constructor per toolkit pipeline output, recording exactly the configuration
the source code gives that pipeline.  C++ `double` values (spacing, origin,
radius, null value) are modelled as rationals; the direction matrix, whose
entries are only passed through, is modelled as a list of rationals.
The `itk::PluginFilterWatcher` progress-reporting objects and the
`ModuleProcessInformation` pointer have no effect on control flow, the exit
code, or the output image, and are not modelled.
-/

namespace ScanConv

/-- The `ScanConversionResamplingMethod` enum (header lines 46 to 55). -/
inductive Method where
  | ITK_NEAREST_NEIGHBOR
  | ITK_LINEAR
  | ITK_WINDOWED_SINC
  | VTK_PROBE_FILTER
  | VTK_GAUSSIAN_KERNEL
  | VTK_LINEAR_KERNEL
  | VTK_SHEPARD_KERNEL
  | VTK_VORONOI_KERNEL
deriving DecidableEq, Repr

/-- `TOutputImage::SizeType` for the 3-D images this header is used with:
the code indexes `size[0]`, `size[1]`, `size[2]`. -/
abbrev Size := Nat × Nat × Nat

/-- `TOutputImage::SpacingType`: three `double` components, modelled as
rationals. -/
abbrev Spacing := ℚ × ℚ × ℚ

/-- `TOutputImage::PointType` (the output origin): three `double` components. -/
abbrev Origin := ℚ × ℚ × ℚ

/-- `TOutputImage::DirectionType`: a direction matrix whose entries the code
never inspects, only forwards to `SetOutputDirection`.  Modelled as the list
of its entries. -/
abbrev Direction := List ℚ

/-- `EXIT_SUCCESS` from `<cstdlib>`. -/
def EXIT_SUCCESS : Int := 0

/-- `EXIT_FAILURE` from `<cstdlib>`. -/
def EXIT_FAILURE : Int := 1

/-- The ITK interpolator chosen in the `switch` of
`ITKScanConversionResampling` (header lines 82 to 110).  The windowed-sinc
case uses a Lanczos window with `Radius = 3`. -/
inductive ITKInterp where
  | nearestNeighbor
  | linear
  | windowedSincLanczos3
deriving DecidableEq, Repr

/-- A configuration call made on a freshly constructed VTK interpolation
kernel (header lines 221 to 252). -/
inductive KernelCall where
  | setKernelFootprintToRadius
  | setRadius (r : ℚ)
deriving DecidableEq, Repr

/-- The concrete VTK kernel class constructed. -/
inductive KernelType where
  | gaussian
  | linearKernel
  | shepard
  | voronoi
deriving DecidableEq, Repr

/-- A VTK interpolation kernel: which class was instantiated and, in order,
the configuration calls made on it before it is handed to the point
interpolator. -/
structure Kernel where
  ktype : KernelType
  calls : List KernelCall
deriving DecidableEq, Repr

/-- Symbolic image values flowing through the pipelines.  Each constructor is
one toolkit pipeline output, carrying exactly the configuration the source
gives that pipeline.  `allocCopy regionOf src` is the freshly allocated image
whose regions are set to the largest possible region of `regionOf` and whose
buffer is filled by `itk::ImageAlgorithm::Copy` from `src`. -/
inductive ImgExpr where
  | input
  | resampleOutput (interp : ITKInterp) (size : Size) (spacing : Spacing)
      (origin : Origin) (direction : Direction) (src : ImgExpr)
  | structuredGrid (src : ImgExpr)
  | gridImage (size : Size) (spacing : Spacing) (origin : Origin)
      (withScalars : Bool)
  | probeOutput (source inputGrid : ImgExpr)
  | pointInterpOutput (kernel : Kernel) (source inputGrid : ImgExpr)
  | vtkToITKOutput (src : ImgExpr)
  | castOutput (src : ImgExpr)
  | allocCopy (regionOf : ImgExpr) (src : ImgExpr)
deriving DecidableEq, Repr

/-- One toolkit call, in program order.  Constructors carry the arguments the
source passes. -/
inductive Ev where
  | resamplerSetInput (img : ImgExpr)
  | resamplerSetSize (s : Size)
  | resamplerSetOutputSpacing (sp : Spacing)
  | resamplerSetOutputOrigin (o : Origin)
  | resamplerSetOutputDirection (d : Direction)
  | resamplerSetInterpolator (k : ITKInterp)
  | resamplerUpdate
  | conversionSetInput (img : ImgExpr)
  | conversionUpdate
  | sgComputeBounds
  | gridSetDimensions (s : Size)
  | gridSetSpacing (sp : Spacing)
  | gridSetOrigin (o : Origin)
  | gridComputeBounds
  | gridSetScalars (allocSize : Nat)
  | probeSetSourceData (img : ImgExpr)
  | probeSetInputData (img : ImgExpr)
  | probeUpdate
  | piSetSourceData (img : ImgExpr)
  | piSetInputData (img : ImgExpr)
  | piSetPassPointArrays (b : Bool)
  | piSetNullPointsStrategyToNullValue
  | piSetNullValue (v : ℚ)
  | piSetKernel (k : Kernel)
  | piUpdate
  | vtkToITKSetInput (img : ImgExpr)
  | vtkToITKUpdate
  | kernelDelete
  | casterSetInput (img : ImgExpr)
  | casterUpdate
  | outputSetRegions (regionOf : ImgExpr)
  | outputCopyInformation (src : ImgExpr)
  | outputAllocate
  | assignOutput (img : ImgExpr)
  | printError (msg : String)
deriving DecidableEq, Repr

/-- Result of one of the four functions: the `int` return value, the value
assigned to the by-reference `outputImage` parameter (`none` when the function
returns without touching it), and the ordered trace of toolkit calls. -/
structure FnResult where
  code : Int
  newOutput : Option ImgExpr
  trace : List Ev
deriving DecidableEq, Repr

/-- The interpolator selected by the `switch( method )` in
`ITKScanConversionResampling` (header lines 82 to 110); `none` is the
`default:` branch. -/
def itkInterpOf : Method → Option ITKInterp
  | .ITK_NEAREST_NEIGHBOR => some .nearestNeighbor
  | .ITK_LINEAR => some .linear
  | .ITK_WINDOWED_SINC => some .windowedSincLanczos3
  | _ => none

/-- `ITKScanConversionResampling` (header lines 58 to 117): constructs an
`itk::ResampleImageFilter`, sets its input, size, output spacing, origin and
direction, selects the interpolator by `method` (failing with a message on any
other method), runs `Update`, and assigns the resampler output to
`outputImage`. -/
def ITKScanConversionResampling (inputImage : ImgExpr) (size : Size)
    (spacing : Spacing) (origin : Origin) (direction : Direction)
    (method : Method) : FnResult :=
  let pre : List Ev :=
    [ .resamplerSetInput inputImage
    , .resamplerSetSize size
    , .resamplerSetOutputSpacing spacing
    , .resamplerSetOutputOrigin origin
    , .resamplerSetOutputDirection direction ]
  match itkInterpOf method with
  | some interp =>
      let out := ImgExpr.resampleOutput interp size spacing origin direction
        inputImage
      { code := EXIT_SUCCESS
      , newOutput := some out
      , trace := pre ++
          [ .resamplerSetInterpolator interp
          , .resamplerUpdate
          , .assignOutput out ] }
  | none =>
      { code := EXIT_FAILURE
      , newOutput := none
      , trace := pre ++
          [ .printError "Unsupported resampling method in ITKScanConversionResampling" ] }

/-- `VTKProbeFilterResampling` (header lines 120 to 169): converts the input
to a `vtkStructuredGrid`, builds a `vtkImageData` grid with the caller's size,
spacing and origin, probes the structured grid onto that grid, converts the
probed image back to ITK, copies it into a freshly allocated output image
whose regions are the converted image's largest possible region, assigns it to
`outputImage` and returns `EXIT_SUCCESS`. -/
def VTKProbeFilterResampling (inputImage : ImgExpr) (size : Size)
    (spacing : Spacing) (origin : Origin) : FnResult :=
  let sg := ImgExpr.structuredGrid inputImage
  let grid := ImgExpr.gridImage size spacing origin false
  let probed := ImgExpr.probeOutput sg grid
  let converted := ImgExpr.vtkToITKOutput probed
  let out := ImgExpr.allocCopy converted converted
  { code := EXIT_SUCCESS
  , newOutput := some out
  , trace :=
      [ .conversionSetInput inputImage
      , .conversionUpdate
      , .gridSetDimensions size
      , .gridSetSpacing spacing
      , .gridSetOrigin origin
      , .gridComputeBounds
      , .probeSetSourceData sg
      , .probeSetInputData grid
      , .probeUpdate
      , .vtkToITKSetInput probed
      , .vtkToITKUpdate
      , .outputSetRegions converted
      , .outputAllocate
      , .assignOutput out ] }

/-- The loop of header lines 214 to 218: `maxSpacing` starts at `0.0` and is
folded with `std::max` over the three spacing components. -/
def maxSpacing (spacing : Spacing) : ℚ :=
  [spacing.1, spacing.2.1, spacing.2.2].foldl max 0

/-- The kernel constructed by the first `switch( method )` of
`VTKPointInterpolatorResampling` (header lines 221 to 256); `none` is the
`default:` branch.  The Gaussian, linear and Shepard kernels get
`SetKernelFootprintToRadius` and `SetRadius( radius )`; the Voronoi kernel is
constructed with no further configuration. -/
def kernelOf (method : Method) (radius : ℚ) : Option Kernel :=
  match method with
  | .VTK_GAUSSIAN_KERNEL =>
      some ⟨.gaussian, [.setKernelFootprintToRadius, .setRadius radius]⟩
  | .VTK_LINEAR_KERNEL =>
      some ⟨.linearKernel, [.setKernelFootprintToRadius, .setRadius radius]⟩
  | .VTK_SHEPARD_KERNEL =>
      some ⟨.shepard, [.setKernelFootprintToRadius, .setRadius radius]⟩
  | .VTK_VORONOI_KERNEL =>
      some ⟨.voronoi, []⟩
  | _ => none

/-- The second `switch( method )` of `VTKPointInterpolatorResampling`
(header lines 263 to 278): `true` exactly on the four VTK kernel methods. -/
def isVTKKernelMethod : Method → Bool
  | .VTK_GAUSSIAN_KERNEL => true
  | .VTK_LINEAR_KERNEL => true
  | .VTK_SHEPARD_KERNEL => true
  | .VTK_VORONOI_KERNEL => true
  | _ => false

/-- `VTKPointInterpolatorResampling` (header lines 172 to 300): converts the
input to a `vtkStructuredGrid`, builds a `vtkImageData` grid with the caller's
size, spacing and origin plus an allocated float scalar array, configures a
`vtkPointInterpolator` (no pass-through of point arrays, null-points strategy
null-value with null value `0.0`), constructs the kernel selected by `method`
with radius `1.1 * maxSpacing` (failing with a message on any other method),
runs the interpolator, converts the float result to ITK, casts it to the
output pixel type, copies the cast image into a freshly allocated output image
whose regions are the cast image's largest possible region, assigns it to
`outputImage` and returns `EXIT_SUCCESS`. -/
def VTKPointInterpolatorResampling (inputImage : ImgExpr) (size : Size)
    (spacing : Spacing) (origin : Origin) (method : Method) : FnResult :=
  let sg := ImgExpr.structuredGrid inputImage
  let grid := ImgExpr.gridImage size spacing origin true
  let pre : List Ev :=
    [ .conversionSetInput inputImage
    , .conversionUpdate
    , .sgComputeBounds
    , .gridSetDimensions size
    , .gridSetSpacing spacing
    , .gridSetOrigin origin
    , .gridComputeBounds
    , .gridSetScalars (size.1 * size.2.1 * size.2.2)
    , .piSetSourceData sg
    , .piSetInputData grid
    , .piSetPassPointArrays false
    , .piSetNullPointsStrategyToNullValue
    , .piSetNullValue 0 ]
  let radius : ℚ := 11 / 10 * maxSpacing spacing
  match kernelOf method radius with
  | none =>
      { code := EXIT_FAILURE
      , newOutput := none
      , trace := pre ++ [ .printError "Unexpected interpolation kernel" ] }
  | some kernel =>
      if isVTKKernelMethod method then
        let interpolated := ImgExpr.pointInterpOutput kernel sg grid
        let converted := ImgExpr.vtkToITKOutput interpolated
        let cast := ImgExpr.castOutput converted
        let out := ImgExpr.allocCopy cast cast
        { code := EXIT_SUCCESS
        , newOutput := some out
        , trace := pre ++
            [ .piSetKernel kernel
            , .piUpdate
            , .vtkToITKSetInput interpolated
            , .vtkToITKUpdate
            , .kernelDelete
            , .casterSetInput converted
            , .casterUpdate
            , .outputSetRegions cast
            , .outputCopyInformation cast
            , .outputAllocate
            , .assignOutput out ] }
      else
        { code := EXIT_FAILURE
        , newOutput := none
        , trace := pre ++ [ .printError "Unexpected interpolation kernel" ] }

/-- The string-to-enum mapping of `ScanConversionResampling` (header lines
318 to 350).  `method` is initialised to `ITK_LINEAR` and the if/else-if
chain has no final `else`, so any unrecognised string leaves `ITK_LINEAR` in
place. -/
def methodFromString (methodString : String) : Method :=
  if methodString = "ITKNearestNeighbor" then .ITK_NEAREST_NEIGHBOR
  else if methodString = "ITKLinear" then .ITK_LINEAR
  else if methodString = "ITKWindowedSinc" then .ITK_WINDOWED_SINC
  else if methodString = "VTKProbeFilter" then .VTK_PROBE_FILTER
  else if methodString = "VTKGaussianKernel" then .VTK_GAUSSIAN_KERNEL
  else if methodString = "VTKLinearKernel" then .VTK_LINEAR_KERNEL
  else if methodString = "VTKShepardKernel" then .VTK_SHEPARD_KERNEL
  else if methodString = "VTKVoronoiKernel" then .VTK_VORONOI_KERNEL
  else .ITK_LINEAR

/-- `ScanConversionResampling` (header lines 303 to 393): maps the method
string to the enum and dispatches on it.  The C++ `switch` covers all eight
enumerators with `return` statements, so its `default:` branch (print
"Unknown scan conversion resampling method" and fall through to
`return EXIT_FAILURE`, lines 389 to 392) is unreachable: `methodFromString`
always produces an enumerator.  The match below is therefore total. -/
def ScanConversionResampling (inputImage : ImgExpr) (size : Size)
    (spacing : Spacing) (origin : Origin) (direction : Direction)
    (methodString : String) : FnResult :=
  let method := methodFromString methodString
  match method with
  | .ITK_NEAREST_NEIGHBOR | .ITK_LINEAR | .ITK_WINDOWED_SINC =>
      ITKScanConversionResampling inputImage size spacing origin direction
        method
  | .VTK_PROBE_FILTER =>
      VTKProbeFilterResampling inputImage size spacing origin
  | .VTK_GAUSSIAN_KERNEL | .VTK_LINEAR_KERNEL | .VTK_SHEPARD_KERNEL
  | .VTK_VORONOI_KERNEL =>
      VTKPointInterpolatorResampling inputImage size spacing origin method

/-- The eight method-name strings recognised by the if/else-if chain of
`ScanConversionResampling`. -/
def recognizedMethodNames : List String :=
  [ "ITKNearestNeighbor", "ITKLinear", "ITKWindowedSinc", "VTKProbeFilter"
  , "VTKGaussianKernel", "VTKLinearKernel", "VTKShepardKernel"
  , "VTKVoronoiKernel" ]

/-- Recognise a `printError` trace event. -/
def isPrintError : Ev → Bool
  | .printError _ => true
  | _ => false

/-- Recognise the resampler `SetSize` call. -/
def isSetSize : Ev → Bool
  | .resamplerSetSize _ => true
  | _ => false

/-- Recognise the resampler `SetOutputSpacing` call. -/
def isSetSpacing : Ev → Bool
  | .resamplerSetOutputSpacing _ => true
  | _ => false

/-- Recognise the resampler `SetOutputOrigin` call. -/
def isSetOrigin : Ev → Bool
  | .resamplerSetOutputOrigin _ => true
  | _ => false

/-- Recognise the resampler `SetOutputDirection` call: the only call in the
header that configures a pipeline with the caller-supplied direction. -/
def isSetDirection : Ev → Bool
  | .resamplerSetOutputDirection _ => true
  | _ => false

/-- Recognise the resampler `SetInterpolator` call. -/
def isSetInterpolator : Ev → Bool
  | .resamplerSetInterpolator _ => true
  | _ => false

/-- Recognise the resampler `Update` call. -/
def isResamplerUpdate : Ev → Bool
  | .resamplerUpdate => true
  | _ => false

/-- Recognise the grid `SetDimensions` call. -/
def isGridSetDimensions : Ev → Bool
  | .gridSetDimensions _ => true
  | _ => false

/-- Recognise the grid `SetSpacing` call. -/
def isGridSetSpacing : Ev → Bool
  | .gridSetSpacing _ => true
  | _ => false

/-- Recognise the grid `SetOrigin` call. -/
def isGridSetOrigin : Ev → Bool
  | .gridSetOrigin _ => true
  | _ => false

/-- Recognise the probe filter `Update` call. -/
def isProbeUpdate : Ev → Bool
  | .probeUpdate => true
  | _ => false

/-- Recognise the point interpolator `Update` call. -/
def isPiUpdate : Ev → Bool
  | .piUpdate => true
  | _ => false

/-- Recognise the assignment to `outputImage`. -/
def isAssignOutput : Ev → Bool
  | .assignOutput _ => true
  | _ => false

/-- Recognise `SetPassPointArrays( false )` on the point interpolator. -/
def isPiSetPassPointArraysFalse : Ev → Bool
  | .piSetPassPointArrays b => b == false
  | _ => false

/-- Recognise `SetNullPointsStrategyToNullValue` on the point interpolator. -/
def isPiSetNullStrategy : Ev → Bool
  | .piSetNullPointsStrategyToNullValue => true
  | _ => false

/-- Recognise `SetNullValue( 0.0 )` on the point interpolator. -/
def isPiSetNullValueZero : Ev → Bool
  | .piSetNullValue v => v == 0
  | _ => false

/-- `firstBefore p q t` holds when both a `p`-event and a `q`-event occur in
the trace `t` and the first `p`-event strictly precedes the first
`q`-event. -/
def firstBefore (p q : Ev → Bool) (t : List Ev) : Bool :=
  match t.findIdx? p, t.findIdx? q with
  | some i, some j => decide (i < j)
  | _, _ => false

/-- All four geometry parameters of the ITK resampler — size, spacing,
origin and direction — are set before the resampler runs. -/
def itkGeometryBeforeUpdate (t : List Ev) : Bool :=
  firstBefore isSetSize isResamplerUpdate t &&
  firstBefore isSetSpacing isResamplerUpdate t &&
  firstBefore isSetOrigin isResamplerUpdate t &&
  firstBefore isSetDirection isResamplerUpdate t

/-- The VTK output grid is configured with size, spacing and origin before
the chain step recognised by `run` executes. -/
def vtkGridGeometryBefore (run : Ev → Bool) (t : List Ev) : Bool :=
  firstBefore isGridSetDimensions run t &&
  firstBefore isGridSetSpacing run t &&
  firstBefore isGridSetOrigin run t

/-- Full `construct, set parameters, invoke, extract` ordering of
`ITKScanConversionResampling`: size, spacing, origin, direction and the
interpolator are all set before `Update`, and `outputImage` is assigned only
after `Update`. -/
def itkOrderOK (t : List Ev) : Bool :=
  itkGeometryBeforeUpdate t &&
  firstBefore isSetInterpolator isResamplerUpdate t &&
  firstBefore isResamplerUpdate isAssignOutput t

/-- The point interpolator is fully configured — pass-point-arrays off,
null-points strategy null-value, null value `0.0` — before it runs. -/
def piConfigBeforeRun (t : List Ev) : Bool :=
  firstBefore isPiSetPassPointArraysFalse isPiUpdate t &&
  firstBefore isPiSetNullStrategy isPiUpdate t &&
  firstBefore isPiSetNullValueZero isPiUpdate t

/-- The result holds `EXIT_SUCCESS` and an output image freshly allocated
with regions equal to the largest possible region of the cast float pipeline
output and filled by copying from that same cast image. -/
def castCopyOfFloatPipeline (inputImage : ImgExpr) (size : Size)
    (spacing : Spacing) (origin : Origin) (r : FnResult) : Prop :=
  r.code = EXIT_SUCCESS ∧
  ∃ k, r.newOutput = some
    (.allocCopy
      (.castOutput (.vtkToITKOutput (.pointInterpOutput k
        (.structuredGrid inputImage) (.gridImage size spacing origin true))))
      (.castOutput (.vtkToITKOutput (.pointInterpOutput k
        (.structuredGrid inputImage) (.gridImage size spacing origin true)))))

/-- Modelled from the claim's words (C9): the maximum component of the
caller-supplied output spacing, with no artificial lower bound. -/
def specMaxSpacingComponent (spacing : Spacing) : ℚ :=
  max spacing.1 (max spacing.2.1 spacing.2.2)

/-- C2: each of the eight recognized method-name strings is mapped to its
corresponding enumerator, and `ScanConversionResampling` invokes the matching
adapter: `ITKScanConversionResampling` for the three ITK methods,
`VTKProbeFilterResampling` for the probe filter, and
`VTKPointInterpolatorResampling` for the four kernel methods. -/
theorem C2_recognized_names_dispatch (inputImage : ImgExpr) (size : Size)
    (spacing : Spacing) (origin : Origin) (direction : Direction) :
    (methodFromString "ITKNearestNeighbor" = Method.ITK_NEAREST_NEIGHBOR ∧
      ScanConversionResampling inputImage size spacing origin direction
          "ITKNearestNeighbor"
        = ITKScanConversionResampling inputImage size spacing origin direction
          Method.ITK_NEAREST_NEIGHBOR) ∧
    (methodFromString "ITKLinear" = Method.ITK_LINEAR ∧
      ScanConversionResampling inputImage size spacing origin direction
          "ITKLinear"
        = ITKScanConversionResampling inputImage size spacing origin direction
          Method.ITK_LINEAR) ∧
    (methodFromString "ITKWindowedSinc" = Method.ITK_WINDOWED_SINC ∧
      ScanConversionResampling inputImage size spacing origin direction
          "ITKWindowedSinc"
        = ITKScanConversionResampling inputImage size spacing origin direction
          Method.ITK_WINDOWED_SINC) ∧
    (methodFromString "VTKProbeFilter" = Method.VTK_PROBE_FILTER ∧
      ScanConversionResampling inputImage size spacing origin direction
          "VTKProbeFilter"
        = VTKProbeFilterResampling inputImage size spacing origin) ∧
    (methodFromString "VTKGaussianKernel" = Method.VTK_GAUSSIAN_KERNEL ∧
      ScanConversionResampling inputImage size spacing origin direction
          "VTKGaussianKernel"
        = VTKPointInterpolatorResampling inputImage size spacing origin
          Method.VTK_GAUSSIAN_KERNEL) ∧
    (methodFromString "VTKLinearKernel" = Method.VTK_LINEAR_KERNEL ∧
      ScanConversionResampling inputImage size spacing origin direction
          "VTKLinearKernel"
        = VTKPointInterpolatorResampling inputImage size spacing origin
          Method.VTK_LINEAR_KERNEL) ∧
    (methodFromString "VTKShepardKernel" = Method.VTK_SHEPARD_KERNEL ∧
      ScanConversionResampling inputImage size spacing origin direction
          "VTKShepardKernel"
        = VTKPointInterpolatorResampling inputImage size spacing origin
          Method.VTK_SHEPARD_KERNEL) ∧
    (methodFromString "VTKVoronoiKernel" = Method.VTK_VORONOI_KERNEL ∧
      ScanConversionResampling inputImage size spacing origin direction
          "VTKVoronoiKernel"
        = VTKPointInterpolatorResampling inputImage size spacing origin
          Method.VTK_VORONOI_KERNEL) := by
  exact ⟨⟨rfl, rfl⟩, ⟨rfl, rfl⟩, ⟨rfl, rfl⟩, ⟨rfl, rfl⟩, ⟨rfl, rfl⟩,
    ⟨rfl, rfl⟩, ⟨rfl, rfl⟩, ⟨rfl, rfl⟩⟩

/-- C1 counterexample: on the unrecognized method name `"NoSuchMethod"`,
`ScanConversionResampling` does not take a print-and-fail fallback.  The
string falls through the if/else-if chain, leaving the initial `ITK_LINEAR`
in `method`: the call returns `EXIT_SUCCESS`, runs the ITK resampling chain
(`resampler->Update()` appears in the trace), assigns `outputImage`, and
prints no error. -/
theorem C1_counterexample :
    methodFromString "NoSuchMethod" = Method.ITK_LINEAR ∧
    (ScanConversionResampling .input (2, 2, 2) (1, 1, 1) (0, 0, 0)
        [1, 0, 0, 0, 1, 0, 0, 0, 1] "NoSuchMethod").code = EXIT_SUCCESS ∧
    (ScanConversionResampling .input (2, 2, 2) (1, 1, 1) (0, 0, 0)
        [1, 0, 0, 0, 1, 0, 0, 0, 1] "NoSuchMethod").newOutput ≠ none ∧
    Ev.resamplerUpdate ∈ (ScanConversionResampling .input (2, 2, 2) (1, 1, 1)
        (0, 0, 0) [1, 0, 0, 0, 1, 0, 0, 0, 1] "NoSuchMethod").trace ∧
    ((ScanConversionResampling .input (2, 2, 2) (1, 1, 1) (0, 0, 0)
        [1, 0, 0, 0, 1, 0, 0, 0, 1] "NoSuchMethod").trace.all
      fun e => !(isPrintError e)) = true := by
  decide

/-- C1 (amended): for every method-name string that is not one of the eight
recognized names, `ScanConversionResampling` falls back to `ITK_LINEAR` —
`method` keeps its initial value — and behaves exactly as the dispatch on
`"ITKLinear"`: it runs the ITK linear resampling chain via
`ITKScanConversionResampling` and returns its `EXIT_SUCCESS`; the
unknown-method print-and-fail branch is unreachable. -/
theorem C1_unrecognized_falls_back_to_linear (inputImage : ImgExpr)
    (size : Size) (spacing : Spacing) (origin : Origin)
    (direction : Direction) (s : String)
    (h : s ∉ recognizedMethodNames) :
    methodFromString s = Method.ITK_LINEAR ∧
    ScanConversionResampling inputImage size spacing origin direction s
      = ITKScanConversionResampling inputImage size spacing origin direction
        Method.ITK_LINEAR ∧
    (ScanConversionResampling inputImage size spacing origin direction s).code
      = EXIT_SUCCESS := by
  simp only [recognizedMethodNames, List.mem_cons, List.not_mem_nil, or_false,
    not_or] at h
  obtain ⟨h1, h2, h3, h4, h5, h6, h7, h8⟩ := h
  have hm : methodFromString s = Method.ITK_LINEAR := by
    unfold methodFromString
    simp [h1, h2, h3, h4, h5, h6, h7, h8]
  have hd : ScanConversionResampling inputImage size spacing origin direction s
      = ITKScanConversionResampling inputImage size spacing origin direction
        Method.ITK_LINEAR := by
    unfold ScanConversionResampling
    rw [hm]
  exact ⟨hm, hd, by rw [hd]; exact rfl⟩

/-- C1 witness: a concrete unrecognized name for which the amended statement
holds. -/
theorem C1_unrecognized_falls_back_to_linear_witness :
    "Bogus" ∉ recognizedMethodNames ∧
    (methodFromString "Bogus" = Method.ITK_LINEAR ∧
      ScanConversionResampling .input (2, 2, 2) (1, 1, 1) (0, 0, 0)
          [1, 0, 0, 0, 1, 0, 0, 0, 1] "Bogus"
        = ITKScanConversionResampling .input (2, 2, 2) (1, 1, 1) (0, 0, 0)
          [1, 0, 0, 0, 1, 0, 0, 0, 1] Method.ITK_LINEAR ∧
      (ScanConversionResampling .input (2, 2, 2) (1, 1, 1) (0, 0, 0)
          [1, 0, 0, 0, 1, 0, 0, 0, 1] "Bogus").code = EXIT_SUCCESS) :=
  ⟨by decide,
   C1_unrecognized_falls_back_to_linear .input (2, 2, 2) (1, 1, 1) (0, 0, 0)
     [1, 0, 0, 0, 1, 0, 0, 0, 1] "Bogus" (by decide)⟩

/-- C4: for each of the eight recognized method-name strings,
`ScanConversionResampling` returns exactly the integer return code produced
by the adapter it dispatches to, unchanged. -/
theorem C4_forwards_adapter_return_code (inputImage : ImgExpr) (size : Size)
    (spacing : Spacing) (origin : Origin) (direction : Direction) :
    (ScanConversionResampling inputImage size spacing origin direction
        "ITKNearestNeighbor").code
      = (ITKScanConversionResampling inputImage size spacing origin direction
        Method.ITK_NEAREST_NEIGHBOR).code ∧
    (ScanConversionResampling inputImage size spacing origin direction
        "ITKLinear").code
      = (ITKScanConversionResampling inputImage size spacing origin direction
        Method.ITK_LINEAR).code ∧
    (ScanConversionResampling inputImage size spacing origin direction
        "ITKWindowedSinc").code
      = (ITKScanConversionResampling inputImage size spacing origin direction
        Method.ITK_WINDOWED_SINC).code ∧
    (ScanConversionResampling inputImage size spacing origin direction
        "VTKProbeFilter").code
      = (VTKProbeFilterResampling inputImage size spacing origin).code ∧
    (ScanConversionResampling inputImage size spacing origin direction
        "VTKGaussianKernel").code
      = (VTKPointInterpolatorResampling inputImage size spacing origin
        Method.VTK_GAUSSIAN_KERNEL).code ∧
    (ScanConversionResampling inputImage size spacing origin direction
        "VTKLinearKernel").code
      = (VTKPointInterpolatorResampling inputImage size spacing origin
        Method.VTK_LINEAR_KERNEL).code ∧
    (ScanConversionResampling inputImage size spacing origin direction
        "VTKShepardKernel").code
      = (VTKPointInterpolatorResampling inputImage size spacing origin
        Method.VTK_SHEPARD_KERNEL).code ∧
    (ScanConversionResampling inputImage size spacing origin direction
        "VTKVoronoiKernel").code
      = (VTKPointInterpolatorResampling inputImage size spacing origin
        Method.VTK_VORONOI_KERNEL).code := by
  exact ⟨rfl, rfl, rfl, rfl, rfl, rfl, rfl, rfl⟩

/-- C3 counterexample: for the recognized method `"VTKProbeFilter"` the chain
runs (the probe filter `Update` appears in the trace and the call succeeds)
without ever being configured with the caller-supplied direction: no
direction-setting call occurs in the trace.  The full geometry of the claim —
size, spacing, origin, and direction — is therefore not configured for this
recognized method. -/
theorem C3_counterexample :
    (ScanConversionResampling .input (2, 2, 2) (1, 1, 1) (0, 0, 0)
        [1, 0, 0, 0, 1, 0, 0, 0, 1] "VTKProbeFilter").code = EXIT_SUCCESS ∧
    Ev.probeUpdate ∈ (ScanConversionResampling .input (2, 2, 2) (1, 1, 1)
        (0, 0, 0) [1, 0, 0, 0, 1, 0, 0, 0, 1] "VTKProbeFilter").trace ∧
    ((ScanConversionResampling .input (2, 2, 2) (1, 1, 1) (0, 0, 0)
        [1, 0, 0, 0, 1, 0, 0, 0, 1] "VTKProbeFilter").trace.all
      fun e => !(isSetDirection e)) = true := by
  decide

/-- C3 (amended): for the three ITK methods the resampler is configured with
the full caller-supplied geometry — size, spacing, origin, and direction —
before the chain is run; for the probe-filter method and the four kernel
methods the output grid is configured with size, spacing and origin before
the chain is run, but the direction is not supplied to the VTK adapters and
no chain object is configured with it. -/
theorem C3_geometry_configured_before_run (inputImage : ImgExpr) (size : Size)
    (spacing : Spacing) (origin : Origin) (direction : Direction) :
    (itkGeometryBeforeUpdate (ScanConversionResampling inputImage size spacing
        origin direction "ITKNearestNeighbor").trace = true ∧
      itkGeometryBeforeUpdate (ScanConversionResampling inputImage size
        spacing origin direction "ITKLinear").trace = true ∧
      itkGeometryBeforeUpdate (ScanConversionResampling inputImage size
        spacing origin direction "ITKWindowedSinc").trace = true) ∧
    (vtkGridGeometryBefore isProbeUpdate (ScanConversionResampling inputImage
        size spacing origin direction "VTKProbeFilter").trace = true ∧
      ((ScanConversionResampling inputImage size spacing origin direction
        "VTKProbeFilter").trace.all fun e => !(isSetDirection e)) = true) ∧
    (vtkGridGeometryBefore isPiUpdate (ScanConversionResampling inputImage
        size spacing origin direction "VTKGaussianKernel").trace = true ∧
      vtkGridGeometryBefore isPiUpdate (ScanConversionResampling inputImage
        size spacing origin direction "VTKLinearKernel").trace = true ∧
      vtkGridGeometryBefore isPiUpdate (ScanConversionResampling inputImage
        size spacing origin direction "VTKShepardKernel").trace = true ∧
      vtkGridGeometryBefore isPiUpdate (ScanConversionResampling inputImage
        size spacing origin direction "VTKVoronoiKernel").trace = true ∧
      ((ScanConversionResampling inputImage size spacing origin direction
        "VTKGaussianKernel").trace.all fun e => !(isSetDirection e)) = true ∧
      ((ScanConversionResampling inputImage size spacing origin direction
        "VTKLinearKernel").trace.all fun e => !(isSetDirection e)) = true ∧
      ((ScanConversionResampling inputImage size spacing origin direction
        "VTKShepardKernel").trace.all fun e => !(isSetDirection e)) = true ∧
      ((ScanConversionResampling inputImage size spacing origin direction
        "VTKVoronoiKernel").trace.all fun e => !(isSetDirection e)) = true) := by
  exact ⟨⟨rfl, rfl, rfl⟩, ⟨rfl, rfl⟩,
    ⟨rfl, rfl, rfl, rfl, rfl, rfl, rfl, rfl⟩⟩

/-- C5: for each of the four VTK kernel methods,
`VTKPointInterpolatorResampling` returns `EXIT_SUCCESS` and assigns
`outputImage` a freshly allocated image whose regions equal the largest
possible region of the cast image — the float point-interpolation pipeline
output cast to the output pixel type — and whose buffer is copied from that
same cast image. -/
theorem C5_kernel_methods_cast_and_copy (inputImage : ImgExpr) (size : Size)
    (spacing : Spacing) (origin : Origin) :
    castCopyOfFloatPipeline inputImage size spacing origin
      (VTKPointInterpolatorResampling inputImage size spacing origin
        Method.VTK_GAUSSIAN_KERNEL) ∧
    castCopyOfFloatPipeline inputImage size spacing origin
      (VTKPointInterpolatorResampling inputImage size spacing origin
        Method.VTK_LINEAR_KERNEL) ∧
    castCopyOfFloatPipeline inputImage size spacing origin
      (VTKPointInterpolatorResampling inputImage size spacing origin
        Method.VTK_SHEPARD_KERNEL) ∧
    castCopyOfFloatPipeline inputImage size spacing origin
      (VTKPointInterpolatorResampling inputImage size spacing origin
        Method.VTK_VORONOI_KERNEL) := by
  exact ⟨⟨rfl, _, rfl⟩, ⟨rfl, _, rfl⟩, ⟨rfl, _, rfl⟩, ⟨rfl, _, rfl⟩⟩

/-- C6: for every method-name string, the adapters invoked through
`ScanConversionResampling` never reach their unsupported-method error
branches: the trace contains no error print at all and the call returns
`EXIT_SUCCESS` — `ITKScanConversionResampling` is only ever dispatched one of
the three ITK methods and `VTKPointInterpolatorResampling` one of the four
VTK kernel methods. -/
theorem C6_adapter_error_branches_unreachable (inputImage : ImgExpr)
    (size : Size) (spacing : Spacing) (origin : Origin)
    (direction : Direction) (s : String) :
    ((ScanConversionResampling inputImage size spacing origin direction
        s).trace.all fun e => !(isPrintError e)) = true ∧
    (ScanConversionResampling inputImage size spacing origin direction
        s).code = EXIT_SUCCESS := by
  unfold ScanConversionResampling methodFromString
  split_ifs <;> exact ⟨rfl, rfl⟩

/-- C7: for each of the three ITK methods, `ITKScanConversionResampling`
follows the order construct, set parameters, invoke, extract: size, spacing,
origin, direction and the method-specific interpolator are all set before
`Update`, and `outputImage` is assigned the resampler output only after
`Update`. -/
theorem C7_itk_construct_configure_invoke_extract (inputImage : ImgExpr)
    (size : Size) (spacing : Spacing) (origin : Origin)
    (direction : Direction) :
    (itkOrderOK (ITKScanConversionResampling inputImage size spacing origin
        direction Method.ITK_NEAREST_NEIGHBOR).trace = true ∧
      (ITKScanConversionResampling inputImage size spacing origin direction
          Method.ITK_NEAREST_NEIGHBOR).newOutput
        = some (.resampleOutput .nearestNeighbor size spacing origin direction
          inputImage)) ∧
    (itkOrderOK (ITKScanConversionResampling inputImage size spacing origin
        direction Method.ITK_LINEAR).trace = true ∧
      (ITKScanConversionResampling inputImage size spacing origin direction
          Method.ITK_LINEAR).newOutput
        = some (.resampleOutput .linear size spacing origin direction
          inputImage)) ∧
    (itkOrderOK (ITKScanConversionResampling inputImage size spacing origin
        direction Method.ITK_WINDOWED_SINC).trace = true ∧
      (ITKScanConversionResampling inputImage size spacing origin direction
          Method.ITK_WINDOWED_SINC).newOutput
        = some (.resampleOutput .windowedSincLanczos3 size spacing origin
          direction inputImage)) := by
  exact ⟨⟨rfl, rfl⟩, ⟨rfl, rfl⟩, ⟨rfl, rfl⟩⟩

/-- C8: whenever `ScanConversionResampling` or any of the three adapters
returns `EXIT_FAILURE`, the caller's `outputImage` reference is left
unchanged (`newOutput = none`): assignment to `outputImage` happens only on
`EXIT_SUCCESS` paths. -/
theorem C8_failure_leaves_output_unchanged (inputImage : ImgExpr)
    (size : Size) (spacing : Spacing) (origin : Origin)
    (direction : Direction) :
    (∀ m, (ITKScanConversionResampling inputImage size spacing origin
          direction m).code = EXIT_FAILURE →
        (ITKScanConversionResampling inputImage size spacing origin direction
          m).newOutput = none) ∧
    ((VTKProbeFilterResampling inputImage size spacing origin).code
        = EXIT_FAILURE →
      (VTKProbeFilterResampling inputImage size spacing origin).newOutput
        = none) ∧
    (∀ m, (VTKPointInterpolatorResampling inputImage size spacing origin
          m).code = EXIT_FAILURE →
        (VTKPointInterpolatorResampling inputImage size spacing origin
          m).newOutput = none) ∧
    (∀ s, (ScanConversionResampling inputImage size spacing origin direction
          s).code = EXIT_FAILURE →
        (ScanConversionResampling inputImage size spacing origin direction
          s).newOutput = none) := by
  refine ⟨fun m => ?_, fun h => ?_, fun m => ?_, fun s => ?_⟩
  · cases m <;> first
      | exact fun _ => rfl
      | exact fun h => nomatch h
  · exact nomatch h
  · cases m <;> first
      | exact fun _ => rfl
      | exact fun h => nomatch h
  · unfold ScanConversionResampling methodFromString
    split_ifs <;> exact fun h => nomatch h

/-- C8 witness: concrete failing calls — the ITK adapter handed a VTK method
and the point-interpolator adapter handed an ITK method — leave the output
unassigned. -/
theorem C8_failure_leaves_output_unchanged_witness :
    (ITKScanConversionResampling .input (2, 2, 2) (1, 1, 1) (0, 0, 0)
        [1, 0, 0, 0, 1, 0, 0, 0, 1] Method.VTK_PROBE_FILTER).newOutput
      = none ∧
    (VTKPointInterpolatorResampling .input (2, 2, 2) (1, 1, 1) (0, 0, 0)
        Method.ITK_LINEAR).newOutput = none :=
  ⟨(C8_failure_leaves_output_unchanged .input (2, 2, 2) (1, 1, 1) (0, 0, 0)
      [1, 0, 0, 0, 1, 0, 0, 0, 1]).1 Method.VTK_PROBE_FILTER (by decide),
   (C8_failure_leaves_output_unchanged .input (2, 2, 2) (1, 1, 1) (0, 0, 0)
      [1, 0, 0, 0, 1, 0, 0, 0, 1]).2.2.1 Method.ITK_LINEAR (by decide)⟩

/-- C9: for nonnegative output spacing, the Gaussian, linear and Shepard
kernels are configured in radius mode with radius `1.1` times the maximum
spacing component, while the Voronoi kernel is constructed with no further
configuration.  (The code folds `std::max` starting from `0.0` over the
spacing components, which agrees with the plain maximum exactly when some
component is nonnegative.) -/
theorem C9_kernel_radius_configuration (inputImage : ImgExpr) (size : Size)
    (spacing : Spacing) (origin : Origin) (h1 : 0 ≤ spacing.1)
    (_h2 : 0 ≤ spacing.2.1) (_h3 : 0 ≤ spacing.2.2) :
    Ev.piSetKernel ⟨.gaussian, [.setKernelFootprintToRadius,
        .setRadius (11 / 10 * specMaxSpacingComponent spacing)]⟩
      ∈ (VTKPointInterpolatorResampling inputImage size spacing origin
        Method.VTK_GAUSSIAN_KERNEL).trace ∧
    Ev.piSetKernel ⟨.linearKernel, [.setKernelFootprintToRadius,
        .setRadius (11 / 10 * specMaxSpacingComponent spacing)]⟩
      ∈ (VTKPointInterpolatorResampling inputImage size spacing origin
        Method.VTK_LINEAR_KERNEL).trace ∧
    Ev.piSetKernel ⟨.shepard, [.setKernelFootprintToRadius,
        .setRadius (11 / 10 * specMaxSpacingComponent spacing)]⟩
      ∈ (VTKPointInterpolatorResampling inputImage size spacing origin
        Method.VTK_SHEPARD_KERNEL).trace ∧
    Ev.piSetKernel ⟨.voronoi, []⟩
      ∈ (VTKPointInterpolatorResampling inputImage size spacing origin
        Method.VTK_VORONOI_KERNEL).trace := by
  have hmax : maxSpacing spacing = specMaxSpacingComponent spacing := by
    unfold maxSpacing specMaxSpacingComponent
    simp only [List.foldl]
    rw [max_eq_right h1, max_assoc]
  rw [← hmax]
  refine ⟨?_, ?_, ?_, ?_⟩ <;>
    simp [VTKPointInterpolatorResampling, kernelOf, isVTKKernelMethod]

/-- C9 witness: the radius configuration at the concrete spacing
`(1, 2, 3)`. -/
theorem C9_kernel_radius_configuration_witness :
    (0 ≤ ((1 : ℚ), (2 : ℚ), (3 : ℚ)).1 ∧
      0 ≤ ((1 : ℚ), (2 : ℚ), (3 : ℚ)).2.1 ∧
      0 ≤ ((1 : ℚ), (2 : ℚ), (3 : ℚ)).2.2) ∧
    (Ev.piSetKernel ⟨.gaussian, [.setKernelFootprintToRadius,
        .setRadius (11 / 10 * specMaxSpacingComponent (1, 2, 3))]⟩
      ∈ (VTKPointInterpolatorResampling .input (2, 2, 2) (1, 2, 3) (0, 0, 0)
        Method.VTK_GAUSSIAN_KERNEL).trace ∧
    Ev.piSetKernel ⟨.linearKernel, [.setKernelFootprintToRadius,
        .setRadius (11 / 10 * specMaxSpacingComponent (1, 2, 3))]⟩
      ∈ (VTKPointInterpolatorResampling .input (2, 2, 2) (1, 2, 3) (0, 0, 0)
        Method.VTK_LINEAR_KERNEL).trace ∧
    Ev.piSetKernel ⟨.shepard, [.setKernelFootprintToRadius,
        .setRadius (11 / 10 * specMaxSpacingComponent (1, 2, 3))]⟩
      ∈ (VTKPointInterpolatorResampling .input (2, 2, 2) (1, 2, 3) (0, 0, 0)
        Method.VTK_SHEPARD_KERNEL).trace ∧
    Ev.piSetKernel ⟨.voronoi, []⟩
      ∈ (VTKPointInterpolatorResampling .input (2, 2, 2) (1, 2, 3) (0, 0, 0)
        Method.VTK_VORONOI_KERNEL).trace) :=
  ⟨⟨by decide, by decide, by decide⟩,
   C9_kernel_radius_configuration .input (2, 2, 2) (1, 2, 3) (0, 0, 0)
     (by decide) (by decide) (by decide)⟩

/-- C10: for each of the four VTK kernel methods, the point interpolator is
configured before it runs so that null output points receive the null value
`0.0` (`SetNullPointsStrategyToNullValue` and `SetNullValue( 0.0 )`) and
source point arrays are not passed through
(`SetPassPointArrays( false )`). -/
theorem C10_interpolator_configured_before_run (inputImage : ImgExpr)
    (size : Size) (spacing : Spacing) (origin : Origin) :
    piConfigBeforeRun (VTKPointInterpolatorResampling inputImage size spacing
      origin Method.VTK_GAUSSIAN_KERNEL).trace = true ∧
    piConfigBeforeRun (VTKPointInterpolatorResampling inputImage size spacing
      origin Method.VTK_LINEAR_KERNEL).trace = true ∧
    piConfigBeforeRun (VTKPointInterpolatorResampling inputImage size spacing
      origin Method.VTK_SHEPARD_KERNEL).trace = true ∧
    piConfigBeforeRun (VTKPointInterpolatorResampling inputImage size spacing
      origin Method.VTK_VORONOI_KERNEL).trace = true := by
  exact ⟨rfl, rfl, rfl, rfl⟩

end ScanConv
